import Mathlib

/-!
# Verification of the stremio-service server process supervisor

Shallow embedding of `src/server.rs` (the `Server` supervisor, its stdout
endpoint watcher, `ServerInner::stop`, `Server::update_status`,
`Server::start` and `Config::at_dir`), together with theorems settling the
specification's claims about them.

External collaborators (the `url` crate parser, the tokio `Child` process
handle, the filesystem, the HTTP settings probe) are modelled by small
explicit structures; each such model carries a doc comment stating what it
models. Everything taken from the repository itself follows `src/server.rs`
line by line, including its quirks.
-/

set_option autoImplicit false

namespace StremioService

/-! ## Model of `url::Url` (external crate)

Only the pieces the supervisor uses: a scheme, a host-port part and a path.
`parseUrl` is a simplified model of `str::parse::<Url>()`: a string parses
exactly when it has the shape `scheme://hostport[/path]` with nonempty
scheme and host; anything without a `://` separator (e.g. an empty string
or prose) fails to parse, as it does in the url crate. -/

structure Url where
  scheme : String
  hostPort : String
  path : String
deriving Repr, DecidableEq

/-- Model of `Url::set_scheme`: replaces the scheme. The source calls it
only as `set_scheme("http").unwrap()` on an already-special scheme, where
the url crate succeeds. -/
def Url.set_scheme (u : Url) (s : String) : Url :=
  ⟨s, u.hostPort, u.path⟩

/-- Model of `Url::join` with an absolute path argument (the source only
joins `"/settings"`): the path is replaced, scheme and authority kept. -/
def Url.joinAbs (u : Url) (p : String) : Url :=
  ⟨u.scheme, u.hostPort, p⟩

/-- Splits a character list at the first `://`, returning the (reversed
accumulator corrected) scheme part and the remainder. -/
def findSchemeSplit : List Char → List Char → Option (List Char × List Char)
  | acc, ':' :: '/' :: '/' :: rest => some (acc.reverse, rest)
  | acc, c :: rest => findSchemeSplit (c :: acc) rest
  | _, [] => none

/-- Splits a character list at the first `/` (the slash staying with the
second component); used to separate host-port from path. -/
def splitAtSlash : List Char → List Char → List Char × List Char
  | acc, [] => (acc.reverse, [])
  | acc, '/' :: rest => (acc.reverse, '/' :: rest)
  | acc, c :: rest => splitAtSlash (c :: acc) rest

def parseUrl (s : String) : Option Url :=
  match findSchemeSplit [] s.data with
  | none => none
  | some (sch, rest) =>
    if sch.isEmpty then none
    else
      let hp := splitAtSlash [] rest
      if hp.1.isEmpty then none
      else some ⟨String.mk sch, String.mk hp.1,
                 if hp.2.isEmpty then "/" else String.mk hp.2⟩


/-! ## The stdout endpoint watcher

`Server::start` spawns a task reading the child's stdout line by line
(server.rs:141-168). Each iteration of that loop observes one read event:
a line, end-of-file (`Ok(None)`, "do nothing"), or a read error (logged).
A line carrying the sentinel prefix `"EngineFS server started at "` is
stripped and parsed; on parse success the URL is published with
`send_replace` on the watch channel; on parse failure the error is logged
and the loop continues. -/

/-- The sentinel prefix of server.rs:148. -/
def sentinel : String := "EngineFS server started at "

/-- Structural model of `str::strip_prefix` on character lists. -/
def stripPfxChars : List Char → List Char → Option (List Char)
  | [], s => some s
  | _ :: _, [] => none
  | p :: ps, c :: cs => if p = c then stripPfxChars ps cs else none

/-- Model of `str::strip_prefix`. -/
def stripPfx (p s : String) : Option String :=
  (stripPfxChars p.data s.data).map String.mk

/-- One observation of the watcher loop: `line_reader.next_line().await`
returning `Ok(Some(line))`, `Ok(None)` or `Err(err)`. -/
inductive ReadEvent where
  | line (s : String)
  | eofRead
  | readErr (msg : String)
deriving Repr, DecidableEq

/-- The URL a read event publishes, if any: the event is a line, the line
carries the sentinel prefix, and the remainder parses as a URL
(server.rs:146-158). -/
def lineUrl (ev : ReadEvent) : Option Url :=
  match ev with
  | .line s => (stripPfx sentinel s).bind parseUrl
  | .eofRead => none
  | .readErr _ => none

/-- One iteration of the watcher loop over the watch-channel cell: returns
the new cell content and the list of `send_replace` publications performed
(empty or a singleton). A valid sentinel line always publishes — the loop
has no first-match flag. -/
def watcherStep (cell : Option Url) (ev : ReadEvent) : Option Url × List Url :=
  match lineUrl ev with
  | some u => (some u, [u])
  | none => (cell, [])

/-- Runs the watcher loop over a finite prefix of read events, returning
the final cell content and all publications in order. -/
def watcherRun (cell : Option Url) (evs : List ReadEvent) : Option Url × List Url :=
  match evs with
  | [] => (cell, [])
  | ev :: rest =>
    let s := watcherStep cell ev
    let r := watcherRun s.1 rest
    (r.1, s.2 ++ r.2)

/-- All URLs the watcher publishes on the watch channel for a given stdout
trace, starting from the initial empty cell of `Server::new`. -/
def publishedUrls (evs : List ReadEvent) : List Url :=
  (watcherRun none evs).2

/-- The value `start`'s endpoint wait loop picks up: the first publication
(the wait loop breaks at the first observed `Some`, server.rs:175-190). -/
def firstEndpoint (evs : List ReadEvent) : Option Url :=
  (publishedUrls evs).head?

/-! ## Model of `tokio::process::Child` (external crate)

A spawned child handle. `pid` is the OS process id assigned at spawn.
`osAlive` records whether the OS process is currently alive (it is false
after the process exits, whether killed by the supervisor or out-of-band).
`reaped` records whether this handle has been polled to completion
(`kill().await` or `wait().await`); tokio's `Child::id()` returns
`Some(pid)` until the handle has been polled to completion and `None`
afterwards — an exited but un-reaped process still reports its pid. -/

structure Child where
  pid : Nat
  osAlive : Bool
  reaped : Bool
deriving Repr, DecidableEq

/-- Model of `tokio::process::Child::id`: `None` exactly when the handle
was polled to completion, independently of whether the OS process is
actually still alive. -/
def Child.id (c : Child) : Option Nat :=
  if c.reaped then none else some c.pid

/-! ## The supervisor's data model (server.rs:31-72, 422-448) -/

/-- `Config` of server.rs:422-448: validated paths plus the CORS flag.
Paths are modelled as plain strings. -/
structure Config where
  node : String
  ffmpeg : String
  ffprobe : String
  server : String
  no_cors : Bool
deriving Repr, DecidableEq

/-- `Info` of server.rs:31-49: the snapshot of a running server. -/
structure Info where
  config : Config
  version : String
  base_url : Url
deriving Repr, DecidableEq

/-- `ServerStatus` of server.rs:51-56. -/
inductive ServerStatus where
  | Stopped
  | Running (process : Child) (info : Info)
deriving Repr, DecidableEq

/-! ## `ServerInner::stop` (server.rs:360-397)

Under the status write lock: in the `Running` arm it reads `process.id()`,
awaits `process.kill()` (capturing its result), then — only when the id
was present — sleeps the 6-second `WAIT_FOR_FULL_STOP` settle interval;
it finally returns `kill_result.map(|_| pid_stopped)`. Note the arm never
assigns `ServerStatus::Stopped` to the status: the (killed) child handle
stays attached. In the `Stopped` arm it returns `Ok(false)`.

The kill outcome is an environment parameter (`Except String Unit`); a
successful `kill().await` reaps the handle and the OS process is gone. -/

instance {ε α : Type} [DecidableEq ε] [DecidableEq α] : DecidableEq (Except ε α) :=
  fun a b =>
    match a, b with
    | .ok x, .ok y =>
      if h : x = y then .isTrue (by rw [h]) else .isFalse (by simp [h])
    | .error x, .error y =>
      if h : x = y then .isTrue (by rw [h]) else .isFalse (by simp [h])
    | .ok _, .error _ => .isFalse (by simp)
    | .error _, .ok _ => .isFalse (by simp)

/-- The observable outcome of one `stop` call: the returned result, whether
the settle sleep was performed, and whether a kill was attempted. -/
structure StopResult where
  result : Except String Bool
  sleptSettle : Bool
  killAttempted : Bool
deriving Repr, DecidableEq

def ServerInner.stop (killOutcome : Except String Unit) (st : ServerStatus) :
    StopResult × ServerStatus :=
  match st with
  | .Running process info =>
    let idBefore := process.id
    let processAfter : Child :=
      match killOutcome with
      | .ok _ => ⟨process.pid, false, true⟩
      | .error _ => process
    let pid_stopped := idBefore.isSome
    (⟨killOutcome.map (fun _ => pid_stopped), idBefore.isSome, true⟩,
      .Running processAfter info)
  | .Stopped => (⟨.ok false, false, false⟩, .Stopped)

/-! ## `Server::update_status` (server.rs:261-288)

Reads the status; in the `Running` arm it takes `process.id()` as the
liveness signal: if it is `Some` it returns `Some(info)` and leaves the
state alone, otherwise it schedules the transition to `Stopped` (performed
under the write lock afterwards) and returns `None`. -/

def Server.update_status (st : ServerStatus) : Option Info × ServerStatus :=
  match st with
  | .Running process info =>
    if (Child.id process).isSome then (some info, .Running process info)
    else (none, .Stopped)
  | .Stopped => (none, .Stopped)

/-! ## `Config::at_dir` and the binary-name helpers (server.rs:450-583)

The filesystem is modelled as explicit lists of directories and files;
`Path::try_exists` is modelled as total (always `Ok(bool)`), which is the
case relevant to the claims. -/

structure FS where
  dirs : List String
  files : List String
deriving Repr, DecidableEq

def strMem (x : String) : List String → Bool
  | [] => false
  | y :: ys => if x = y then true else strMem x ys

def FS.isDir (fs : FS) (p : String) : Bool := strMem p fs.dirs

def FS.fileExists (fs : FS) (p : String) : Bool := strMem p fs.files

/-- Model of `PathBuf::join` for the flat joins `at_dir` performs. -/
def pathJoin (dir file : String) : String := dir ++ "/" ++ file

/-- `Config::node_bin` (server.rs:576-582). -/
def Config.node_bin (os : String) : Except String String :=
  match os with
  | "linux" => .ok "stremio-runtime"
  | "macos" => .ok "stremio-runtime"
  | "windows" => .ok "stremio-runtime.exe"
  | other => .error ("Operating system " ++ other ++ " is not supported")

/-- `Config::ffmpeg_bin` (server.rs:548-554). -/
def Config.ffmpeg_bin (os : String) : Except String String :=
  match os with
  | "linux" => .ok "ffmpeg"
  | "macos" => .ok "ffmpeg"
  | "windows" => .ok "ffmpeg.exe"
  | other => .error ("Operating system " ++ other ++ " is not supported")

/-- `Config::ffprobe_bin` (server.rs:556-562). -/
def Config.ffprobe_bin (os : String) : Except String String :=
  match os with
  | "linux" => .ok "ffprobe"
  | "macos" => .ok "ffprobe"
  | "windows" => .ok "ffprobe.exe"
  | other => .error ("Operating system " ++ other ++ " is not supported")

def exceptIsErr {ε α : Type} : Except ε α → Bool
  | .ok _ => false
  | .error _ => true

/-- `Config::at_dir` (server.rs:462-534), followed arm by arm. Note the
two last existence checks of the source: `ffprobe_exists` tests
`ffprobe.try_exists()` (with `server` in its error message, as in the
source), and `server_exists` — the check named after server.js — also
tests `ffprobe.try_exists()` (server.rs:493), not the server.js path. -/
def Config.at_dir (fs : FS) (os : String) (directory : String) (no_cors : Bool) :
    Except String Config :=
  if fs.isDir directory then
    match Config.node_bin os with
    | .error e => .error e
    | .ok nodeBin =>
      let node := pathJoin directory nodeBin
      let server := pathJoin directory "server.js"
      match Config.ffmpeg_bin os with
      | .error e => .error e
      | .ok ffmpegBin =>
        let ffmpeg := pathJoin directory ffmpegBin
        match Config.ffprobe_bin os with
        | .error e => .error e
        | .ok ffprobeBin =>
          let ffprobe := pathJoin directory ffprobeBin
          let node_exists : Except String Unit :=
            if fs.fileExists node then .ok ()
            else .error ("Nodejs not found at: " ++ node)
          let ffmpeg_exists : Except String Unit :=
            if fs.fileExists ffmpeg then .ok ()
            else .error ("ffmpeg not found at: " ++ ffmpeg)
          let ffprobe_exists : Except String Unit :=
            if fs.fileExists ffprobe then .ok ()
            else .error ("ffprobe not found at: " ++ server)
          let server_exists : Except String Unit :=
            if fs.fileExists ffprobe then .ok ()
            else .error ("server.js not found at: " ++ server)
          if exceptIsErr node_exists || exceptIsErr ffmpeg_exists
              || exceptIsErr ffprobe_exists || exceptIsErr server_exists then
            .error "One or more binaries were not found"
          else
            .ok ⟨node, ffmpeg, ffprobe, server, no_cors⟩
  else
    .error ("The path " ++ directory ++ " does not exist or it is not a directory")

/-! ## `Server::settings` and `Server::start` (server.rs:94-241)

Environment of one `start` call: the outcome of `Command::spawn` (the
command is built with `kill_on_drop(true)` and piped stdout,
server.rs:109-126), the child's stdout trace, and the HTTP settings probe
(`reqwest::get` + status check + JSON parse, merged into one
`Url → Except String ServerSettingsResponse`; error messages of the probe
are abstracted). -/

/-- `SettingsValues` of server.rs:416-420. -/
structure SettingsValues where
  server_version : String
deriving Repr, DecidableEq

/-- `ServerSettingsResponse` of server.rs:409-414. -/
structure ServerSettingsResponse where
  values : SettingsValues
  base_url : Url
deriving Repr, DecidableEq

structure StartEnv where
  spawnResult : Except String Child
  stdoutEvents : List ReadEvent
  httpGet : Url → Except String ServerSettingsResponse

/-- The URL `Server::settings` issues its GET against (server.rs:222):
`server_url.join("/settings")`. -/
def Server.settingsRequestUrl (server_url : Url) : Url :=
  Url.joinAbs server_url "/settings"

/-- `Server::settings` (server.rs:221-241): a single GET against the
settings request URL; transport, status and parse failures are all
surfaced as errors. -/
def Server.settings (get : Url → Except String ServerSettingsResponse)
    (server_url : Url) : Except String ServerSettingsResponse :=
  get (Server.settingsRequestUrl server_url)

/-- The outcome of a `start` call. `hangs` models the endpoint wait loop
of server.rs:175-190: it breaks only when the watch channel holds a URL
and `continue`s on channel errors, with no timeout anywhere, so when no
URL is ever published the call never returns. -/
inductive StartOutcome where
  | ok (info : Info)
  | err (msg : String)
  | hangs
deriving Repr, DecidableEq

/-- Observable effects of one `start` call: its outcome, the status it
leaves behind, whether a process was spawned, the URL the settings probe
was pointed at (if it ran), and whether the spawned child was killed by
`kill_on_drop` because its handle was dropped before being stored. -/
structure StartResult where
  outcome : StartOutcome
  status : ServerStatus
  spawned : Bool
  probedUrl : Option Url
  childKilledOnDrop : Bool
deriving Repr, DecidableEq

/-- `Server::start` (server.rs:94-218), sequential semantics (the caller
is the only task touching the supervisor). In order:
status check under the read lock (early `Ok(info)` when `Running`);
`command.spawn()` (`bail!` on error, state untouched); the fixed
`WAIT_AFTER_START` sleep; stdout taken (always present for a piped
child) and the watcher task spawned; the endpoint wait loop
(`firstEndpoint`, diverging when nothing is ever published); scheme
forced to `"http"` (server.rs:191); the settings probe — a probe error
propagates via `?`, dropping `new_process` whose `kill_on_drop(true)`
kills the child; on success the status is set to `Running` with the new
`Info` built from the probe response. -/
def Server.start (env : StartEnv) (cfg : Config) (st : ServerStatus) : StartResult :=
  match st with
  | .Running process info => ⟨.ok info, .Running process info, false, none, false⟩
  | .Stopped =>
    match env.spawnResult with
    | .error e => ⟨.err ("Server didn't start: " ++ e), .Stopped, false, none, false⟩
    | .ok newProcess =>
      match firstEndpoint env.stdoutEvents with
      | none => ⟨.hangs, .Stopped, true, none, false⟩
      | some base_url =>
        let url := base_url.set_scheme "http"
        let probeTarget := Server.settingsRequestUrl url
        match Server.settings env.httpGet url with
        | .error e => ⟨.err e, .Stopped, true, some probeTarget, true⟩
        | .ok settings =>
          let info : Info := ⟨cfg, settings.values.server_version, settings.base_url⟩
          ⟨.ok info, .Running newProcess info, true, some probeTarget, false⟩

/-! ## Interleaving model of two concurrent `start` calls

`Server::start` touches the shared status at exactly two points, and
releases the lock in between:

* the status check runs under a read lock that is dropped at the end of
  its block (server.rs:96-105, with the source comment "if status is
  running return early and release read lock");
* the spawn, the post-spawn sleep, the endpoint wait and the settings
  probe run with no lock held;
* the write lock is taken only for the final assignment
  `*status = ServerStatus::running(info, new_process)` (server.rs:203).

Accordingly a `start` task is split into three atomic sections — check,
spawn, status write — separated by the await points of the source; the
lock-free middle part that computes the task's `Info` is folded into the
write step since it does not touch shared state. Tokio's `RwLock` admits
concurrent readers, so the two check sections may both run before either
write section. A schedule is a list of booleans choosing which task makes
the next step. -/

/-- Program counter of one `start` task in the interleaving model. -/
inductive StartPC where
  | checkStatus
  | spawnProc
  | writeStatus
  | finished (res : Info)
deriving Repr, DecidableEq

/-- Shared state plus the two task counters; `spawnCount` counts
`command.spawn()` calls. -/
structure RaceState where
  status : ServerStatus
  spawnCount : Nat
  pc1 : StartPC
  pc2 : StartPC
deriving Repr, DecidableEq

/-- One atomic step of a `start` task whose own spawn would produce the
child `child` and whose discovery/probe phase would produce `info`.
The check step follows server.rs:96-105: a task that observes `Running`
finishes at once with the stored info and never spawns; a task that
observes `Stopped` proceeds to spawn. The write step follows
server.rs:203-207. -/
def stepStart (child : Child) (info : Info) (status : ServerStatus)
    (spawnCount : Nat) (pc : StartPC) : ServerStatus × Nat × StartPC :=
  match pc with
  | .checkStatus =>
    match status with
    | .Running _ i => (status, spawnCount, .finished i)
    | .Stopped => (status, spawnCount, .spawnProc)
  | .spawnProc => (status, spawnCount + 1, .writeStatus)
  | .writeStatus => (.Running child info, spawnCount, .finished info)
  | .finished r => (status, spawnCount, .finished r)

/-- Runs a schedule: `true` steps task 1 (producing `c1`/`i1` if it
spawns), `false` steps task 2 (producing `c2`/`i2`). -/
def runSched (c1 c2 : Child) (i1 i2 : Info) :
    List Bool → RaceState → RaceState
  | [], s => s
  | b :: rest, s =>
    if b then
      let r := stepStart c1 i1 s.status s.spawnCount s.pc1
      runSched c1 c2 i1 i2 rest ⟨r.1, r.2.1, r.2.2, s.pc2⟩
    else
      let r := stepStart c2 i2 s.status s.spawnCount s.pc2
      runSched c1 c2 i1 i2 rest ⟨r.1, r.2.1, s.pc1, r.2.2⟩

/-- Both tasks poised to call `start` on a `Stopped` supervisor. -/
def raceInit : RaceState :=
  ⟨.Stopped, 0, .checkStatus, .checkStatus⟩

/-! ## Concrete fixtures used by witnesses and counterexamples -/

def cfg0 : Config :=
  ⟨"/srv/stremio-runtime", "/srv/ffmpeg", "/srv/ffprobe", "/srv/server.js", false⟩

def url0 : Url := ⟨"http", "127.0.0.1:11470", "/"⟩

def info0 : Info := ⟨cfg0, "4.20.0", url0⟩

def info1 : Info := ⟨cfg0, "4.20.1", url0⟩

def child0 : Child := ⟨100, true, false⟩

def child1 : Child := ⟨101, true, false⟩

/-- The schedule where task 1 completes its whole `start` before task 2
begins. -/
def seqSched : List Bool := [true, true, true, false]

/-- The racing schedule where both status checks run (as concurrent
readers of the `RwLock`) before either task spawns or writes. -/
def raceSched : List Bool := [true, false, true, false, true, false]

/-! ## Claims -/

/-- C1, counterexample. The claim says every pair of concurrent `start()`
calls issued while `Stopped` spawns exactly one process and returns one
shared `Info`, all transitions being serialized by one exclusive lock. In
the interleaving model of the source the schedule in which both read-locked
status checks precede both spawns — legal, since readers of the `RwLock`
do not exclude one another and the lock is released before spawning —
makes both tasks spawn: the final spawn count is 2 and the two calls
return different `Info` values. -/
theorem claim1_counterexample :
    (runSched child0 child1 info0 info1 raceSched raceInit).spawnCount = 2
    ∧ (runSched child0 child1 info0 info1 raceSched raceInit).pc1
        = .finished info0
    ∧ (runSched child0 child1 info0 info1 raceSched raceInit).pc2
        = .finished info1
    ∧ info0 ≠ info1 := by
  refine ⟨rfl, rfl, rfl, ?_⟩
  decide

/-- C1, amended claim: only the individual status accesses of `start` are
protected by the `RwLock` — the check runs under a read lock released
before spawning, and only the final status write is exclusive. A `start`
that observes `Running` spawns nothing and returns the stored info, so
when one `start` completes before the other begins exactly one process is
spawned and both calls return the same `Info`; but when both checks run
before either write, each call spawns its own process and the second
status write overwrites the first. -/
theorem claim1_amended :
    ∀ (c1 c2 : Child) (i1 i2 : Info),
      runSched c1 c2 i1 i2 seqSched raceInit
        = ⟨.Running c1 i1, 1, .finished i1, .finished i1⟩
      ∧ runSched c1 c2 i1 i2 raceSched raceInit
        = ⟨.Running c2 i2, 2, .finished i1, .finished i2⟩ := by
  intro c1 c2 i1 i2
  exact ⟨rfl, rfl⟩

/-- C2, evaluation at the failing input. The claim says that after
`stop()` on a `Running` supervisor the state is `Stopped` with no process
handle attached, whatever the kill outcome, and that a successful kill
returns `true`. The code never assigns `ServerStatus::Stopped` in
`ServerInner::stop`: after a successful kill the state is still `Running`
with the killed (reaped) child attached, after a failed kill the error is
returned and the state is still `Running` with the original child — and a
subsequent `start()` therefore early-returns the dead server's old `Info`
without spawning anything, which is what `restart()` does right after its
`stop()`. -/
theorem claim2_code_eval :
    ServerInner.stop (.ok ()) (.Running child0 info0)
      = (⟨.ok true, true, true⟩, .Running ⟨100, false, true⟩ info0)
    ∧ ServerInner.stop (.error "kill refused") (.Running child0 info0)
      = (⟨.error "kill refused", true, true⟩, .Running child0 info0)
    ∧ Server.start ⟨.error "unused", [], fun _ => .error "unused"⟩ cfg0
        (.Running ⟨100, false, true⟩ info0)
      = ⟨.ok info0, .Running ⟨100, false, true⟩ info0, false, none, false⟩ := by
  exact ⟨rfl, rfl, rfl⟩

/-- C3, counterexample. The claim says a `start()` whose child never
announces a valid endpoint returns a NotReady-class error within the
grace window and kills the spawned process first. In the code the
endpoint wait loop of server.rs:175-190 has no timeout (the 3-second
`WAIT_AFTER_START` is an unconditional sleep before it, not a deadline)
and `continue`s on channel errors, so with a stdout trace containing no
valid sentinel the call never returns (`hangs` outcome): no error is
produced and the spawned child is not killed. -/
theorem claim3_counterexample :
    Server.start ⟨.ok child0, [.line "hello", .eofRead],
        fun _ => .error "unreachable"⟩ cfg0 .Stopped
      = ⟨.hangs, .Stopped, true, none, false⟩ := by
  decide

/-- C3, amended claim: when the spawned child never publishes a valid
endpoint, `start()` never returns at all (and the child is not killed);
when an endpoint is discovered but the settings probe fails, `start()`
returns the probe error, the child handle is dropped before being stored
so `kill_on_drop` kills the process, the status stays `Stopped`, and a
status query returns `None`. -/
theorem claim3_amended :
    (∀ (c : Child) (evs : List ReadEvent)
        (get : Url → Except String ServerSettingsResponse) (cfg : Config),
      firstEndpoint evs = none →
      Server.start ⟨.ok c, evs, get⟩ cfg .Stopped
        = ⟨.hangs, .Stopped, true, none, false⟩)
    ∧ (∀ (c : Child) (evs : List ReadEvent)
        (get : Url → Except String ServerSettingsResponse) (cfg : Config)
        (u : Url) (e : String),
      firstEndpoint evs = some u →
      get (Server.settingsRequestUrl (u.set_scheme "http")) = .error e →
      Server.start ⟨.ok c, evs, get⟩ cfg .Stopped
        = ⟨.err e, .Stopped, true,
            some (Server.settingsRequestUrl (u.set_scheme "http")), true⟩
        ∧ (Server.update_status .Stopped).1 = none) := by
  constructor
  · intro c evs get cfg h
    simp [Server.start, h]
  · intro c evs get cfg u e h hget
    refine ⟨?_, rfl⟩
    simp [Server.start, h, Server.settings, hget]

/-- C3, witness for the amended claim at concrete inputs: a child that
only prints prose never lets `start` return, and a child announcing
`http://127.0.0.1:11470` with an unreachable settings endpoint makes
`start` fail, kill the child on drop, and leave the status `Stopped`. -/
theorem claim3_witness :
    Server.start ⟨.ok child1, [.line "bootstrapping", .eofRead],
        fun _ => .error "no probe"⟩ cfg0 .Stopped
      = ⟨.hangs, .Stopped, true, none, false⟩
    ∧ (Server.start ⟨.ok child1,
          [.line ("EngineFS server started at http://127.0.0.1:11470")],
          fun _ => .error "probe down"⟩ cfg0 .Stopped
        = ⟨.err "probe down", .Stopped, true,
            some ⟨"http", "127.0.0.1:11470", "/settings"⟩, true⟩
        ∧ (Server.update_status .Stopped).1 = none) :=
  ⟨claim3_amended.1 child1 [.line "bootstrapping", .eofRead]
      (fun _ => .error "no probe") cfg0 (by decide),
   claim3_amended.2 child1
      [.line ("EngineFS server started at http://127.0.0.1:11470")]
      (fun _ => .error "probe down") cfg0 ⟨"http", "127.0.0.1:11470", "/"⟩
      "probe down" (by decide) rfl⟩

/-- Publications of the watcher loop are exactly the parsed URLs of the
valid sentinel lines, in order, for any starting cell content: the loop
has no first-match flag and calls `send_replace` on every valid line. -/
theorem watcherRun_publications (cell : Option Url) (evs : List ReadEvent) :
    (watcherRun cell evs).2 = evs.filterMap lineUrl := by
  induction evs generalizing cell with
  | nil => rfl
  | cons ev rest ih =>
    cases h : lineUrl ev <;>
      simp [watcherRun, watcherStep, h, List.filterMap_cons, ih]

/-- C4, counterexample. The claim says the watcher publishes the first
valid sentinel URL exactly once and ignores later sentinel lines. On a
stdout trace with two distinct valid sentinel lines the code publishes
both URLs (two `send_replace` calls) and the watch cell ends holding the
second URL, not the first. -/
theorem claim4_counterexample :
    publishedUrls
        [.line ("EngineFS server started at http://127.0.0.1:11470"),
         .line ("EngineFS server started at http://192.168.0.215:9000")]
      = [⟨"http", "127.0.0.1:11470", "/"⟩, ⟨"http", "192.168.0.215:9000", "/"⟩]
    ∧ (watcherRun none
        [.line ("EngineFS server started at http://127.0.0.1:11470"),
         .line ("EngineFS server started at http://192.168.0.215:9000")]).1
      = some ⟨"http", "192.168.0.215:9000", "/"⟩
    ∧ (⟨"http", "127.0.0.1:11470", "/"⟩ : Url)
      ≠ ⟨"http", "192.168.0.215:9000", "/"⟩ := by
  refine ⟨by decide, by decide, by decide⟩

/-- C4, amended claim: the watcher publishes once per valid sentinel
line — the sequence of publications is exactly the parsed URLs of the
valid sentinel lines in stdout order, so later sentinel lines overwrite
the watch cell rather than being ignored; the first publication (the one
the start sequence's wait loop picks up) is still the first valid
sentinel URL. -/
theorem claim4_amended :
    ∀ evs : List ReadEvent,
      publishedUrls evs = evs.filterMap lineUrl
      ∧ firstEndpoint evs = (evs.filterMap lineUrl).head? := by
  intro evs
  exact ⟨watcherRun_publications none evs,
         by simp [firstEndpoint, publishedUrls, watcherRun_publications]⟩

/-- C5, evaluation at the failing input. The claim says `Config::at_dir`
succeeds iff the directory exists and all four referenced files do. In
the source (server.rs:493) the check named `server_exists` tests
`ffprobe.try_exists()` instead of the server.js path, so on a directory
holding `stremio-runtime`, `ffmpeg` and `ffprobe` but no `server.js`,
`at_dir` still returns `Ok` — a `Config` referencing a non-existent
server.js is constructed. -/
theorem claim5_code_eval :
    Config.at_dir ⟨["/srv"], ["/srv/stremio-runtime", "/srv/ffmpeg", "/srv/ffprobe"]⟩
        "linux" "/srv" false
      = .ok ⟨"/srv/stremio-runtime", "/srv/ffmpeg", "/srv/ffprobe",
             "/srv/server.js", false⟩
    ∧ FS.fileExists ⟨["/srv"], ["/srv/stremio-runtime", "/srv/ffmpeg", "/srv/ffprobe"]⟩
        "/srv/server.js" = false := by
  exact ⟨by decide, by decide⟩

/-- C6, evaluation at the failing input. The claim says the status query
detects a child that exited out-of-band and transitions to `Stopped`
returning `None`. The code's liveness signal is `process.id()`
(server.rs:265), which for a tokio child is `None` only once the handle
has been polled to completion (e.g. by `kill().await` inside `stop`); a
child killed out-of-band, whose handle was never polled, still reports
its pid. At such a state — OS process dead, handle not reaped —
`update_status` returns `Some(info)` and leaves the state `Running`. -/
theorem claim6_code_eval :
    Server.update_status (.Running ⟨100, false, false⟩ info0)
      = (some info0, .Running ⟨100, false, false⟩ info0)
    ∧ (⟨100, false, false⟩ : Child).osAlive = false
    ∧ Child.id ⟨100, false, false⟩ = some 100 := by
  exact ⟨rfl, rfl, rfl⟩

/-- C7: `start()` on a `Running` supervisor is idempotent — for every
environment, configuration and running state it returns `Ok` with the
stored `Info`, spawns nothing, probes nothing, kills nothing and leaves
the state exactly as it was (the early return of server.rs:96-105). -/
theorem claim7_start_idempotent_on_running :
    ∀ (env : StartEnv) (cfg : Config) (c : Child) (i : Info),
      Server.start env cfg (.Running c i)
        = ⟨.ok i, .Running c i, false, none, false⟩ := by
  intro env cfg c i
  rfl

/-- C8: a stdout line that carries the sentinel prefix but whose remainder
does not parse as a URL publishes nothing — the watch cell is unchanged,
no `send_replace` happens — and the watcher simply proceeds with the
remaining lines (the `Err` arm of the parse match only logs,
server.rs:155-157). -/
theorem claim8_malformed_sentinel_ignored :
    ∀ (cell : Option Url) (s u : String) (rest : List ReadEvent),
      stripPfx sentinel s = some u →
      parseUrl u = none →
      watcherStep cell (.line s) = (cell, [])
      ∧ watcherRun cell (.line s :: rest) = watcherRun cell rest := by
  intro cell s u rest h1 h2
  have hl : lineUrl (.line s) = none := by simp [lineUrl, h1, h2]
  exact ⟨by simp [watcherStep, hl], by simp [watcherRun, watcherStep, hl]⟩

/-- C8, witness: the malformed announcement
`"EngineFS server started at not a url"` matches the sentinel prefix, its
remainder fails to parse, the step publishes nothing, and the run over it
plus a later valid line equals the run over just the valid line. -/
theorem claim8_witness :
    stripPfx sentinel "EngineFS server started at not a url" = some "not a url"
    ∧ parseUrl "not a url" = none
    ∧ watcherStep none (.line "EngineFS server started at not a url") = (none, [])
    ∧ watcherRun none
        [.line "EngineFS server started at not a url",
         .line ("EngineFS server started at http://127.0.0.1:11470")]
      = watcherRun none
        [.line ("EngineFS server started at http://127.0.0.1:11470")] :=
  ⟨by decide, by decide,
   (claim8_malformed_sentinel_ignored none "EngineFS server started at not a url"
      "not a url" [.line ("EngineFS server started at http://127.0.0.1:11470")]
      (by decide) (by decide)).1,
   (claim8_malformed_sentinel_ignored none "EngineFS server started at not a url"
      "not a url" [.line ("EngineFS server started at http://127.0.0.1:11470")]
      (by decide) (by decide)).2⟩

/-- C9: on a `Running` supervisor with a successful kill, `stop()`
returns `Ok(true)` and performs the 6-second settle sleep exactly when
the child handle still had an OS pid (`reaped = false`); on an
already-reaped handle it returns `Ok(false)` and skips the settle sleep,
while the kill is attempted in both cases (server.rs:364-390). -/
theorem claim9_stop_settle_iff_pid :
    ∀ (pid : Nat) (alive : Bool) (i : Info),
      ServerInner.stop (.ok ()) (.Running ⟨pid, alive, false⟩ i)
        = (⟨.ok true, true, true⟩, .Running ⟨pid, false, true⟩ i)
      ∧ ServerInner.stop (.ok ()) (.Running ⟨pid, alive, true⟩ i)
        = (⟨.ok false, false, true⟩, .Running ⟨pid, false, true⟩ i) := by
  intro pid alive i
  exact ⟨rfl, rfl⟩

/-- C10: whenever `start` discovers an endpoint `u` from the sentinel
line, the URL handed to the settings probe is `u` with its scheme
forcibly rewritten to `"http"` (server.rs:191) joined with `"/settings"`
(server.rs:222) — the probe targets plain HTTP whatever scheme the child
announced. -/
theorem claim10_probe_targets_http :
    ∀ (c : Child) (evs : List ReadEvent)
      (get : Url → Except String ServerSettingsResponse)
      (cfg : Config) (u : Url),
      firstEndpoint evs = some u →
      (Server.start ⟨.ok c, evs, get⟩ cfg .Stopped).probedUrl
        = some ⟨"http", u.hostPort, "/settings"⟩ := by
  intro c evs get cfg u h
  simp [Server.start, h, Server.settings, Server.settingsRequestUrl,
        Url.set_scheme, Url.joinAbs]
  cases get ⟨"http", u.hostPort, "/settings"⟩ <;> rfl

/-- C10, witness: a child announcing the https URL
`https://192.168.0.215:11470` leads `start` to probe
`http://192.168.0.215:11470/settings` — scheme rewritten to plain HTTP. -/
theorem claim10_witness :
    firstEndpoint [.line ("EngineFS server started at https://192.168.0.215:11470")]
      = some ⟨"https", "192.168.0.215:11470", "/"⟩
    ∧ (Server.start ⟨.ok child0,
          [.line ("EngineFS server started at https://192.168.0.215:11470")],
          fun _ => .error "refused"⟩ cfg0 .Stopped).probedUrl
      = some ⟨"http", "192.168.0.215:11470", "/settings"⟩ :=
  ⟨by decide,
   claim10_probe_targets_http child0
      [.line ("EngineFS server started at https://192.168.0.215:11470")]
      (fun _ => .error "refused") cfg0 ⟨"https", "192.168.0.215:11470", "/"⟩
      (by decide)⟩

end StremioService
